import Mathlib

/-!
Shallow embedding of `src/sentry/middleware/ratelimit.py` (class
`RatelimitMiddleware`) and of the interfaces it consumes.

The middleware's collaborators (`get_rate_limit_key`, `get_rate_limit_value`,
`above_rate_limit_check`, `finish_request`, URL resolution, the
`ENFORCE_CONCURRENT_RATE_LIMITS` toggle, the wrapped endpoint
`get_response`) are imported from modules that are not part of the source
tree here; the middleware only observes their results, so they are modelled
as an explicit environment of (possibly raising) calls.  A Python call that
may raise is an `Except Unit` value; the Python `None` of an optional result
is `Option.none`.  Every externally visible action of one middleware
invocation (the call to `above_rate_limit_check`, the call to
`finish_request`, the call to the wrapped endpoint, each `logging.exception`)
is recorded in an event trace so that call/release discipline can be stated.
-/

/-- Classification outcome of one rate-limit check
(`sentry.types.ratelimit.RateLimitType`).
Modelled from the spec: the enumeration itself is outside `src/`; spec section 3
gives the closed enumeration NotLimited / FixedWindow / Concurrent, and the
middleware compares against `NOT_LIMITED` and `FIXED_WINDOW`. -/
inductive RateLimitType where
  | NOT_LIMITED
  | CONCURRENT
  | FIXED_WINDOW
  deriving DecidableEq, Repr

/-- A rate-limit policy (`RateLimit`).
Modelled from the spec: section 3 gives
`Policy = (limit, window, optional concurrentLimit)`; the middleware treats
the value returned by `get_rate_limit_value` opaquely. -/
structure RateLimit where
  limit : Int
  window : Int
  concurrent_limit : Option Int
  deriving DecidableEq, Repr

/-- The per-request check result (`sentry.types.ratelimit.RateLimitMeta`).
Modelled from the spec: section 3 gives
`Meta = (limit, remaining, resetTime, concurrentLimit?, concurrentRemaining?,
classification)`; the middleware reads exactly the fields below. -/
structure RateLimitMeta where
  rate_limit_type : RateLimitType
  limit : Int
  window : Int
  remaining : Int
  reset_time : Int
  concurrent_limit : Option Int
  concurrent_remaining : Option Int
  deriving DecidableEq, Repr

/-- The slice of the shared request object that the middleware reads or
writes: the two ad hoc attributes `request.rate_limit_category` and
`request.rate_limit_metadata`.  `none` is Python `None`; a freshly built
request has `rate_limit_metadata = none` (the attribute is absent, and the
middleware reads it with `getattr(request, "rate_limit_metadata", None)`). -/
structure Request where
  rate_limit_category : Option String
  rate_limit_metadata : Option RateLimitMeta
  deriving DecidableEq, Repr

/-- An HTTP response as the middleware observes and builds it: a status code,
the `detail` entry of the body dict when the middleware itself constructed
the body (the endpoint's own body is irrelevant to the claims and is elided
into `detail = none`), and the response headers as assignment order pairs.
A header value is an `Option Int` because every value the middleware writes
is a field of `RateLimitMeta`, where the two concurrent fields may be
Python `None`. -/
structure HttpResponse where
  status : Int
  detail : Option String
  headers : List (String × Option Int)
  deriving DecidableEq, Repr

/-- The local `data` dict of `RatelimitMiddleware.__call__`; a `none` field is
a key that has not been inserted (reading it raises `KeyError`). -/
structure DataDict where
  will_be_rate_limited : Option Bool
  rate_limit_uid : Option String
  rate_limit_key : Option String
  deriving DecidableEq, Repr

/-- Externally visible events of one middleware invocation, in order. -/
inductive Event where
  | above_rate_limit_check_call (key : String) (rate_limit : RateLimit) (uid : String)
  | finish_request_call (key : String) (uid : String)
  | get_response_call
  | log_check_error
  | log_header_error
  deriving DecidableEq, Repr

/-- The environment of one middleware invocation: results of the external
calls the middleware makes, the two configuration bits it consults, and the
hex digest produced by `uuid.uuid4().hex` at the top of the call.  An
`Except.error` models the call raising an exception.  `header_set_raises`
models the header assignments `response[...] = ...` raising, and
`finish_request_raises` models `finish_request` raising. -/
structure Env where
  resolve : Except Unit Unit
  get_rate_limit_key : Except Unit (Option String)
  get_rate_limit_value : Except Unit (Option RateLimit)
  above_rate_limit_check : String → RateLimit → String → Except Unit RateLimitMeta
  enforce_rate_limit : Bool
  ENFORCE_CONCURRENT_RATE_LIMITS : Bool
  get_response : Request → HttpResponse
  header_set_raises : Bool
  finish_request_raises : Bool
  uuid4_hex : String

/-- `DEFAULT_ERROR_MESSAGE.format(limit=..., window=...)` from the source:
"You are attempting to use this endpoint too frequently. Limit is
 {limit} requests in {window} seconds" with the two placeholders filled. -/
def DEFAULT_ERROR_MESSAGE (limit window : Int) : String :=
  "You are attempting to use this endpoint too frequently. Limit is " ++
    toString limit ++ " requests in " ++ toString window ++ " seconds"

/-- Translation of `rate_limit_key.split(":", 1)[0]`: the longest initial
segment of the key before the first char `:` (the whole key when it has no
such char, exactly as in Python). -/
def category_of_key (key : String) : String :=
  String.mk (key.data.takeWhile (fun c => c != ':'))

/-- How the `try` block of `__call__` (the check phase) exits. -/
inductive CheckOutcome where
  | early_return
  | return429 (resp : HttpResponse)
  | fall_through
  | caught
  deriving DecidableEq, Repr

/-- Result of the check phase: the request (with its attributes as mutated so
far), the `data` dict, the events emitted so far, and how the block exited. -/
structure CheckResult where
  req : Request
  data : DataDict
  events : List Event
  outcome : CheckOutcome
  deriving Repr

/-- The `try ... except Exception` check phase of `RatelimitMiddleware.__call__`,
statement by statement:
`request.rate_limit_category = None`; `rate_limit_uid = uuid.uuid4().hex`;
`view_func = resolve(request.path).func`;
`rate_limit_key = get_rate_limit_key(view_func, request)` with the
`if rate_limit_key is None: return` early exit; populating `data`;
`category_str = data["rate_limit_key"].split(":", 1)[0]` stored on the
request; `rate_limit = get_rate_limit_value(...)` (the
`RateLimitCategory(category_str)` conversion raising is folded into this call
raising) with its own `if rate_limit is None: return` early exit;
`request.rate_limit_metadata = above_rate_limit_check(key, rate_limit, uid)`;
the `rate_limit_cond` conditional; and the 429 rejection when
`enforce_rate_limit` is set on the view class.  Any exception is `caught`. -/
def checkPhase (env : Env) (req : Request) : CheckResult :=
  let req := { req with rate_limit_category := none }
  let rate_limit_uid := env.uuid4_hex
  match env.resolve with
  | .error _ => ⟨req, ⟨none, none, none⟩, [], .caught⟩
  | .ok _ =>
    match env.get_rate_limit_key with
    | .error _ => ⟨req, ⟨none, none, none⟩, [], .caught⟩
    | .ok none => ⟨req, ⟨none, none, none⟩, [], .early_return⟩
    | .ok (some rate_limit_key) =>
      let data : DataDict := ⟨some false, some rate_limit_uid, some rate_limit_key⟩
      let category_str := category_of_key rate_limit_key
      let req := { req with rate_limit_category := some category_str }
      match env.get_rate_limit_value with
      | .error _ => ⟨req, data, [], .caught⟩
      | .ok none => ⟨req, data, [], .early_return⟩
      | .ok (some rate_limit) =>
        let events := [Event.above_rate_limit_check_call rate_limit_key rate_limit rate_limit_uid]
        match env.above_rate_limit_check rate_limit_key rate_limit rate_limit_uid with
        | .error _ => ⟨req, data, events, .caught⟩
        | .ok meta =>
          let req := { req with rate_limit_metadata := some meta }
          let rate_limit_cond : Bool :=
            if env.ENFORCE_CONCURRENT_RATE_LIMITS then
              decide (meta.rate_limit_type ≠ RateLimitType.NOT_LIMITED)
            else
              decide (meta.rate_limit_type = RateLimitType.FIXED_WINDOW)
          if rate_limit_cond then
            let data := { data with will_be_rate_limited := some true }
            if env.enforce_rate_limit then
              ⟨req, data, events,
                .return429 ⟨429, some (DEFAULT_ERROR_MESSAGE meta.limit meta.window), []⟩⟩
            else
              ⟨req, data, events, .fall_through⟩
          else
            ⟨req, data, events, .fall_through⟩

/-- The tail of the response-processing `try` block:
`finish_request(data["rate_limit_key"], data["rate_limit_uid"])`, which
raises `KeyError` (caught by the surrounding `except`) when the dict was
never populated, and may itself raise after being invoked. -/
def finishStep (env : Env) (data : DataDict) (response : HttpResponse) :
    HttpResponse × List Event :=
  match data.rate_limit_key, data.rate_limit_uid with
  | some k, some u =>
    if env.finish_request_raises then
      (response, [Event.finish_request_call k u, Event.log_header_error])
    else
      (response, [Event.finish_request_call k u])
  | _, _ => (response, [Event.log_header_error])

/-- The response-processing `try ... except Exception` of `__call__`:
read `rate_limit_metadata` back off the request with `getattr`; when present,
assign the five `X-Sentry-Rate-Limit-*` headers from it (in source order) —
if an assignment raises, nothing later in the block runs and the error is
logged — then call `finish_request`.  Any exception in the block is caught
and logged as "COULD NOT POPULATE RATE LIMIT HEADERS"; the response is
returned either way. -/
def responsePhase (env : Env) (req : Request) (data : DataDict)
    (response : HttpResponse) : HttpResponse × List Event :=
  match req.rate_limit_metadata with
  | some rate_limit_metadata =>
    if env.header_set_raises then
      (response, [Event.log_header_error])
    else
      let response := { response with
        headers := response.headers ++
          [("X-Sentry-Rate-Limit-Remaining", some rate_limit_metadata.remaining),
           ("X-Sentry-Rate-Limit-Limit", some rate_limit_metadata.limit),
           ("X-Sentry-Rate-Limit-Reset", some rate_limit_metadata.reset_time),
           ("X-Sentry-Rate-Limit-ConcurrentRemaining",
             rate_limit_metadata.concurrent_remaining),
           ("X-Sentry-Rate-Limit-ConcurrentLimit",
             rate_limit_metadata.concurrent_limit)] }
      finishStep env data response
  | none => finishStep env data response

/-- The full result of one `RatelimitMiddleware.__call__`: the returned value
(`none` when a bare `return` executed), the request object's final attribute
state, the final `data` dict, and the ordered event trace. -/
structure CallResult where
  response : Option HttpResponse
  request : Request
  data : DataDict
  events : List Event
  deriving Repr

/-- `RatelimitMiddleware.__call__(request)`: run the check phase; a bare
`return` yields Python `None` and a 429 `return` yields that response, both
without ever calling the endpoint; otherwise (fall-through, or an exception
caught and logged as "Error during rate limiting, failing open") the wrapped
endpoint runs via `self.get_response(request)` and its response passes
through the response-processing phase before being returned. -/
def middlewareCall (env : Env) (req : Request) : CallResult :=
  let c := checkPhase env req
  match c.outcome with
  | .early_return => ⟨none, c.req, c.data, c.events⟩
  | .return429 resp => ⟨some resp, c.req, c.data, c.events⟩
  | .fall_through =>
    let response := env.get_response c.req
    let r2 := responsePhase env c.req c.data response
    ⟨some r2.1, c.req, c.data, c.events ++ [Event.get_response_call] ++ r2.2⟩
  | .caught =>
    let response := env.get_response c.req
    let r2 := responsePhase env c.req c.data response
    ⟨some r2.1, c.req, c.data,
      c.events ++ [Event.log_check_error, Event.get_response_call] ++ r2.2⟩

/-- True exactly when some call of the check phase raises, i.e. when the
`except Exception` handler of the first `try` block fires. -/
def checkRaisesB (env : Env) : Bool :=
  match env.resolve with
  | .error _ => true
  | .ok _ =>
    match env.get_rate_limit_key with
    | .error _ => true
    | .ok none => false
    | .ok (some rate_limit_key) =>
      match env.get_rate_limit_value with
      | .error _ => true
      | .ok none => false
      | .ok (some rate_limit) =>
        match env.above_rate_limit_check rate_limit_key rate_limit env.uuid4_hex with
        | .error _ => true
        | .ok _ => false

/-! Concrete fixtures used by witnesses and counterexamples. -/

/-- A fresh request: neither attribute set yet. -/
def req0 : Request := ⟨none, none⟩

/-- A sample policy: 10 requests per 60-second window, concurrent limit 2. -/
def policy10 : RateLimit := ⟨10, 60, some 2⟩

/-- A sample `NotLimited` check result for `policy10`. -/
def metaNL : RateLimitMeta := ⟨.NOT_LIMITED, 10, 60, 9, 100, some 2, some 1⟩

/-- A sample `FixedWindow` check result for `policy10`. -/
def metaFW : RateLimitMeta := ⟨.FIXED_WINDOW, 10, 60, 0, 100, some 2, some 1⟩

/-- A sample `Concurrent` check result for `policy10`. -/
def metaCC : RateLimitMeta := ⟨.CONCURRENT, 10, 60, 7, 100, some 2, some 0⟩

/-- The wrapped endpoint's own response in the fixtures. -/
def endpointResponse : HttpResponse := ⟨200, none, []⟩

/-- Fixture: key and policy resolve, the check classifies `NotLimited`, the
endpoint opts into enforcement, the concurrent toggle is off, nothing
raises. -/
def envPass : Env :=
  ⟨.ok (), .ok (some "org:123"), .ok (some policy10), fun _ _ _ => .ok metaNL,
   true, false, fun _ => endpointResponse, false, false, "uid1"⟩

/-- Fixture: `get_rate_limit_key` returns `None` (endpoint opted out). -/
def envNoKey : Env := { envPass with get_rate_limit_key := .ok none }

/-- Fixture: key resolves but `get_rate_limit_value` returns `None`
(no configured limit). -/
def envNoPolicy : Env := { envPass with get_rate_limit_value := .ok none }

/-- Fixture: like `envPass` but the check classifies `FixedWindow`, so the
middleware rejects with a 429. -/
def env429 : Env := { envPass with above_rate_limit_check := fun _ _ _ => .ok metaFW }

/-- Fixture: like `envPass` but `above_rate_limit_check` raises. -/
def envCheckRaises : Env :=
  { envPass with above_rate_limit_check := fun _ _ _ => .error () }

/-- Fixture: like `envPass` but the header assignments raise. -/
def envHeaderRaises : Env := { envPass with header_set_raises := true }

/-- C1: the spec says that an absent key (endpoint opted out) or an absent
policy (no configured limit) means "skip rate limiting": the protected
endpoint still executes and its response is returned.  The code instead hits
a bare `return` inside `__call__` in both cases: the middleware returns
Python `None`, `self.get_response` is never called, and no response of the
endpoint exists to be returned.  This theorem evaluates the code on the two
failing inputs: the returned value is `None` and the endpoint-call event is
absent from the trace. -/
theorem C1_skip_paths_return_none :
    (middlewareCall envNoKey req0).response = none ∧
    Event.get_response_call ∉ (middlewareCall envNoKey req0).events ∧
    (middlewareCall envNoPolicy req0).response = none ∧
    Event.get_response_call ∉ (middlewareCall envNoPolicy req0).events := by
  decide

/-- C3: the spec requires `finish_request` on every exit path following an
admitted check, including the rejection path.  On the 429 path the code
returns from inside the first `try` block before the response-processing
block that calls `finish_request` can run: the whole trace of a rejected
request is the single `above_rate_limit_check` call, and the 429 response is
returned with no `finish_request` event. -/
theorem C3_429_path_skips_finish_request :
    (middlewareCall env429 req0).events =
      [Event.above_rate_limit_check_call "org:123" policy10 "uid1"] ∧
    (middlewareCall env429 req0).response =
      some ⟨429, some (DEFAULT_ERROR_MESSAGE 10 60), []⟩ := by
  decide

/-- C10: `request.rate_limit_category` is set to `None` first thing in
`__call__` (whatever it held before), and it ends up as the part of the
resolved key before the first `:` exactly when URL resolution succeeded and
`get_rate_limit_key` returned a key; on every other path (no key, or an
exception in either call) it stays `None`. -/
theorem C10_rate_limit_category (env : Env) (req : Request) :
    (middlewareCall env req).request.rate_limit_category =
      (match env.resolve, env.get_rate_limit_key with
       | .ok _, .ok (some k) => some (category_of_key k)
       | _, _ => none) := by
  obtain ⟨res, gk, gv, arc, er, ec, gr, hsr, frr, u⟩ := env
  cases res with
  | error e => rfl
  | ok _ =>
    cases gk with
    | error e => rfl
    | ok ko =>
      cases ko with
      | none => rfl
      | some k =>
        cases gv with
        | error e => rfl
        | ok vo =>
          cases vo with
          | none => rfl
          | some p =>
            cases harc : arc k p u with
            | error e => simp [middlewareCall, checkPhase, harc]
            | ok meta =>
              obtain ⟨t, l, w, rr, rt, cl, cr⟩ := meta
              cases ec <;> cases er <;> cases t <;>
                simp [middlewareCall, checkPhase, responsePhase, finishStep, harc]

/-- C2: if any call of the check phase raises (URL resolution, key
resolution, policy lookup, or the rate-limit check against the store), the
middleware fails open: the `except Exception` handler logs the error, no
rejection is produced, the wrapped endpoint runs, and the endpoint's own
response (on a fresh request, so no stale metadata attribute exists) is the
value returned to the caller. -/
theorem C2_fail_open (env : Env) (req : Request)
    (h0 : req.rate_limit_metadata = none)
    (h : checkRaisesB env = true) :
    (middlewareCall env req).response =
      some (env.get_response (checkPhase env req).req) ∧
    Event.log_check_error ∈ (middlewareCall env req).events ∧
    Event.get_response_call ∈ (middlewareCall env req).events := by
  obtain ⟨res, gk, gv, arc, er, ec, gr, hsr, frr, uu⟩ := env
  obtain ⟨c0, m0⟩ := req
  simp only at h0
  subst h0
  cases res with
  | error e =>
    cases frr <;> simp [middlewareCall, checkPhase, responsePhase, finishStep]
  | ok _ =>
    cases gk with
    | error e =>
      cases frr <;> simp [middlewareCall, checkPhase, responsePhase, finishStep]
    | ok ko =>
      cases ko with
      | none => simp [checkRaisesB] at h
      | some k0 =>
        cases gv with
        | error e =>
          cases frr <;> simp [middlewareCall, checkPhase, responsePhase, finishStep]
        | ok vo =>
          cases vo with
          | none => simp [checkRaisesB] at h
          | some p0 =>
            cases harc : arc k0 p0 uu with
            | error e =>
              cases frr <;>
                simp [middlewareCall, checkPhase, responsePhase, finishStep, harc]
            | ok meta => simp [checkRaisesB, harc] at h

/-- C2 witness: a concrete environment in which `above_rate_limit_check`
raises; the middleware still returns the endpoint's response and logs. -/
theorem C2_fail_open_witness :
    (middlewareCall envCheckRaises req0).response =
      some (envCheckRaises.get_response (checkPhase envCheckRaises req0).req) ∧
    Event.log_check_error ∈ (middlewareCall envCheckRaises req0).events ∧
    Event.get_response_call ∈ (middlewareCall envCheckRaises req0).events :=
  C2_fail_open envCheckRaises req0 (by decide) (by decide)

/-- C4: on every request whose check completed, the `will_be_rate_limited`
mark is exactly the `rate_limit_cond` of the source: with the
`ENFORCE_CONCURRENT_RATE_LIMITS` toggle disabled only a `FIXED_WINDOW`
classification marks the request rate-limited (a `CONCURRENT` classification
alone never does), and with the toggle enabled any classification other than
`NOT_LIMITED` marks it. -/
theorem C4_concurrent_toggle (env : Env) (req : Request) (k : String)
    (p : RateLimit) (m : RateLimitMeta)
    (h1 : env.resolve = .ok ())
    (h2 : env.get_rate_limit_key = .ok (some k))
    (h3 : env.get_rate_limit_value = .ok (some p))
    (h4 : env.above_rate_limit_check k p env.uuid4_hex = .ok m) :
    (middlewareCall env req).data.will_be_rate_limited =
      some (if env.ENFORCE_CONCURRENT_RATE_LIMITS then
              decide (m.rate_limit_type ≠ RateLimitType.NOT_LIMITED)
            else
              decide (m.rate_limit_type = RateLimitType.FIXED_WINDOW)) := by
  obtain ⟨res, gk, gv, arc, er, ec, gr, hsr, frr, uu⟩ := env
  simp only at h1 h2 h3 h4
  subst h1; subst h2; subst h3
  obtain ⟨t, l, w, rr, rt, cl, cr⟩ := m
  cases ec <;> cases er <;> cases t <;> cases hsr <;> cases frr <;>
    simp [middlewareCall, checkPhase, responsePhase, finishStep, h4]

/-- C4 witness: with the toggle off and a `NotLimited` classification the
mark is `false`. -/
theorem C4_concurrent_toggle_witness :
    (middlewareCall envPass req0).data.will_be_rate_limited =
      some (if envPass.ENFORCE_CONCURRENT_RATE_LIMITS then
              decide (metaNL.rate_limit_type ≠ RateLimitType.NOT_LIMITED)
            else
              decide (metaNL.rate_limit_type = RateLimitType.FIXED_WINDOW)) :=
  C4_concurrent_toggle envPass req0 "org:123" policy10 metaNL rfl rfl rfl rfl

/-- C9: the middleware generates one id for the whole call
(`uuid.uuid4().hex`, modelled as `env.uuid4_hex`), and whenever the trace of
one call contains both an `above_rate_limit_check` event and a
`finish_request` event, the two carry the same key and the same id, and that
id is the one generated at the start. -/
theorem C9_check_release_pair (env : Env) (req : Request)
    (k : String) (p : RateLimit) (u k' u' : String)
    (h1 : Event.above_rate_limit_check_call k p u ∈ (middlewareCall env req).events)
    (h2 : Event.finish_request_call k' u' ∈ (middlewareCall env req).events) :
    k = k' ∧ u = u' ∧ u = env.uuid4_hex := by
  obtain ⟨res, gk, gv, arc, er, ec, gr, hsr, frr, uu⟩ := env
  obtain ⟨c0, m0⟩ := req
  cases res with
  | error e =>
    cases m0 <;> cases hsr <;> cases frr <;>
      simp [middlewareCall, checkPhase, responsePhase, finishStep] at h1
  | ok _ =>
    cases gk with
    | error e =>
      cases m0 <;> cases hsr <;> cases frr <;>
        simp [middlewareCall, checkPhase, responsePhase, finishStep] at h1
    | ok ko =>
      cases ko with
      | none => simp [middlewareCall, checkPhase] at h1
      | some k0 =>
        cases gv with
        | error e =>
          cases m0 <;> cases hsr <;> cases frr <;>
            simp [middlewareCall, checkPhase, responsePhase, finishStep] at h1
        | ok vo =>
          cases vo with
          | none => simp [middlewareCall, checkPhase] at h1
          | some p0 =>
            cases harc : arc k0 p0 uu with
            | error e =>
              cases m0 <;> cases hsr <;> cases frr <;>
                simp [middlewareCall, checkPhase, responsePhase, finishStep,
                  harc] at h1 h2 <;> simp_all
            | ok meta =>
              obtain ⟨t, l, w, rr, rt, cl, cr⟩ := meta
              cases ec <;> cases er <;> cases t <;> cases hsr <;> cases frr <;>
                simp [middlewareCall, checkPhase, responsePhase, finishStep,
                  harc] at h1 h2 <;> simp_all

/-- C9 witness: on the pass-through fixture both events occur; the pairs
coincide and carry the generated id. -/
theorem C9_check_release_pair_witness :
    "org:123" = "org:123" ∧ "uid1" = "uid1" ∧ "uid1" = envPass.uuid4_hex :=
  C9_check_release_pair envPass req0 "org:123" policy10 "uid1" "org:123" "uid1"
    (by decide) (by decide)

/-- C5: when the check marks the request rate-limited and the view class
opts into enforcement, the middleware returns status 429 with body
`{"detail": DEFAULT_ERROR_MESSAGE}` where the limit and window placeholders
are filled from the triggering policy (the hypotheses `hl`/`hw` are the
engine contract of spec section 4.5: the `Meta` the code formats carries the
policy's own `limit` and `window`; the engine itself is outside the source
tree). -/
theorem C5_enforcement_response (env : Env) (req : Request) (k : String)
    (p : RateLimit) (m : RateLimitMeta)
    (h1 : env.resolve = .ok ())
    (h2 : env.get_rate_limit_key = .ok (some k))
    (h3 : env.get_rate_limit_value = .ok (some p))
    (h4 : env.above_rate_limit_check k p env.uuid4_hex = .ok m)
    (hl : m.limit = p.limit) (hw : m.window = p.window)
    (hcond : (if env.ENFORCE_CONCURRENT_RATE_LIMITS then
                decide (m.rate_limit_type ≠ RateLimitType.NOT_LIMITED)
              else
                decide (m.rate_limit_type = RateLimitType.FIXED_WINDOW)) = true)
    (henf : env.enforce_rate_limit = true) :
    (middlewareCall env req).response =
      some ⟨429, some (DEFAULT_ERROR_MESSAGE p.limit p.window), []⟩ := by
  obtain ⟨res, gk, gv, arc, er, ec, gr, hsr, frr, uu⟩ := env
  simp only at h1 h2 h3 h4 hcond henf
  subst h1; subst h2; subst h3; subst henf
  obtain ⟨t, l, w, rr, rt, cl, cr⟩ := m
  simp only at hl hw
  subst hl; subst hw
  cases ec <;> cases t <;>
    simp_all [middlewareCall, checkPhase, responsePhase, finishStep]

/-- C5 witness: the `FixedWindow` rejection fixture yields the 429 with the
policy's numbers in the body. -/
theorem C5_enforcement_response_witness :
    (middlewareCall env429 req0).response =
      some ⟨429, some (DEFAULT_ERROR_MESSAGE policy10.limit policy10.window), []⟩ :=
  C5_enforcement_response env429 req0 "org:123" policy10 metaFW
    rfl rfl rfl rfl rfl rfl (by decide) rfl

/-- C6 counterexample: on a request to which a policy applied (the
pass-through fixture) the returned response carries none of the five header
names the claim lists — the code writes `X-Sentry-Rate-Limit-*` names, not
`X-RateLimit-*`. -/
theorem C6_counterexample :
    ((middlewareCall envPass req0).response.elim ([] : List String)
        fun r => r.headers.map Prod.fst) =
      ["X-Sentry-Rate-Limit-Remaining", "X-Sentry-Rate-Limit-Limit",
       "X-Sentry-Rate-Limit-Reset", "X-Sentry-Rate-Limit-ConcurrentRemaining",
       "X-Sentry-Rate-Limit-ConcurrentLimit"] ∧
    "X-RateLimit-Limit" ∉
      ((middlewareCall envPass req0).response.elim ([] : List String)
        fun r => r.headers.map Prod.fst) ∧
    "X-RateLimit-Remaining" ∉
      ((middlewareCall envPass req0).response.elim ([] : List String)
        fun r => r.headers.map Prod.fst) ∧
    "X-RateLimit-Reset" ∉
      ((middlewareCall envPass req0).response.elim ([] : List String)
        fun r => r.headers.map Prod.fst) ∧
    "X-RateLimit-ConcurrentLimit" ∉
      ((middlewareCall envPass req0).response.elim ([] : List String)
        fun r => r.headers.map Prod.fst) ∧
    "X-RateLimit-ConcurrentRemaining" ∉
      ((middlewareCall envPass req0).response.elim ([] : List String)
        fun r => r.headers.map Prod.fst) := by
  decide

/-- C6 amended: when a policy applied and the request was not rejected (and
header population does not raise), the endpoint's response is returned with
the five `X-Sentry-Rate-Limit-{Remaining,Limit,Reset,ConcurrentRemaining,
ConcurrentLimit}` headers appended, each value taken verbatim from the
check's `Meta`; the rejected (429) response and the no-key / no-policy paths
carry none of them (the latter return no response at all). -/
theorem C6_sentry_headers (env : Env) (req : Request) (k : String)
    (p : RateLimit) (m : RateLimitMeta)
    (h1 : env.resolve = .ok ())
    (h2 : env.get_rate_limit_key = .ok (some k))
    (h3 : env.get_rate_limit_value = .ok (some p))
    (h4 : env.above_rate_limit_check k p env.uuid4_hex = .ok m)
    (hno : (if env.ENFORCE_CONCURRENT_RATE_LIMITS then
              decide (m.rate_limit_type ≠ RateLimitType.NOT_LIMITED)
            else
              decide (m.rate_limit_type = RateLimitType.FIXED_WINDOW)) = false ∨
           env.enforce_rate_limit = false)
    (hhdr : env.header_set_raises = false) :
    (middlewareCall env req).response =
      some { env.get_response (checkPhase env req).req with
        headers := (env.get_response (checkPhase env req).req).headers ++
          [("X-Sentry-Rate-Limit-Remaining", some m.remaining),
           ("X-Sentry-Rate-Limit-Limit", some m.limit),
           ("X-Sentry-Rate-Limit-Reset", some m.reset_time),
           ("X-Sentry-Rate-Limit-ConcurrentRemaining", m.concurrent_remaining),
           ("X-Sentry-Rate-Limit-ConcurrentLimit", m.concurrent_limit)] } := by
  obtain ⟨res, gk, gv, arc, er, ec, gr, hsr, frr, uu⟩ := env
  simp only at h1 h2 h3 h4 hno hhdr
  subst h1; subst h2; subst h3; subst hhdr
  obtain ⟨t, l, w, rr, rt, cl, cr⟩ := m
  cases ec <;> cases er <;> cases t <;> cases frr <;>
    simp_all [middlewareCall, checkPhase, responsePhase, finishStep]

/-- C6 amended witness: the pass-through fixture returns the endpoint
response with exactly the five sentry-named headers appended from `Meta`. -/
theorem C6_sentry_headers_witness :
    (middlewareCall envPass req0).response =
      some { envPass.get_response (checkPhase envPass req0).req with
        headers := (envPass.get_response (checkPhase envPass req0).req).headers ++
          [("X-Sentry-Rate-Limit-Remaining", some metaNL.remaining),
           ("X-Sentry-Rate-Limit-Limit", some metaNL.limit),
           ("X-Sentry-Rate-Limit-Reset", some metaNL.reset_time),
           ("X-Sentry-Rate-Limit-ConcurrentRemaining", metaNL.concurrent_remaining),
           ("X-Sentry-Rate-Limit-ConcurrentLimit", metaNL.concurrent_limit)] } :=
  C6_sentry_headers envPass req0 "org:123" policy10 metaNL
    rfl rfl rfl rfl (Or.inl (by decide)) rfl

/-- C7: when the header assignments raise while formatting `Meta` into the
response, the failure is isolated: the exception is caught, the header error
is logged, and the endpoint's own response is returned to the caller
unmodified. -/
theorem C7_header_failure_isolated (env : Env) (req : Request) (k : String)
    (p : RateLimit) (m : RateLimitMeta)
    (h1 : env.resolve = .ok ())
    (h2 : env.get_rate_limit_key = .ok (some k))
    (h3 : env.get_rate_limit_value = .ok (some p))
    (h4 : env.above_rate_limit_check k p env.uuid4_hex = .ok m)
    (hno : (if env.ENFORCE_CONCURRENT_RATE_LIMITS then
              decide (m.rate_limit_type ≠ RateLimitType.NOT_LIMITED)
            else
              decide (m.rate_limit_type = RateLimitType.FIXED_WINDOW)) = false ∨
           env.enforce_rate_limit = false)
    (hhdr : env.header_set_raises = true) :
    (middlewareCall env req).response =
      some (env.get_response (checkPhase env req).req) ∧
    Event.log_header_error ∈ (middlewareCall env req).events := by
  obtain ⟨res, gk, gv, arc, er, ec, gr, hsr, frr, uu⟩ := env
  simp only at h1 h2 h3 h4 hno hhdr
  subst h1; subst h2; subst h3; subst hhdr
  obtain ⟨t, l, w, rr, rt, cl, cr⟩ := m
  cases ec <;> cases er <;> cases t <;>
    simp_all [middlewareCall, checkPhase, responsePhase, finishStep]

/-- C7 witness: the raising-headers fixture still returns the endpoint's
response and logs the header error. -/
theorem C7_header_failure_isolated_witness :
    (middlewareCall envHeaderRaises req0).response =
      some (envHeaderRaises.get_response (checkPhase envHeaderRaises req0).req) ∧
    Event.log_header_error ∈ (middlewareCall envHeaderRaises req0).events :=
  C7_header_failure_isolated envHeaderRaises req0 "org:123" policy10 metaNL
    rfl rfl rfl rfl (Or.inl (by decide)) rfl

/-- C8 counterexample: the claim says the check result is never stored as
hidden mutable state on the shared request object; on the pass-through
fixture the call mutates the request, storing the `Meta` returned by
`above_rate_limit_check` in `request.rate_limit_metadata` and the key's
category in `request.rate_limit_category`. -/
theorem C8_counterexample :
    req0.rate_limit_metadata = none ∧ req0.rate_limit_category = none ∧
    (middlewareCall envPass req0).request.rate_limit_metadata = some metaNL ∧
    (middlewareCall envPass req0).request.rate_limit_category = some "org" := by
  decide

/-- C8 amended: the check result is threaded as hidden mutable state on the
shared request object, not as an explicit returned value: after a completed
check the request object carries the `Meta` in `rate_limit_metadata` (which
the response phase reads back from the request via `getattr`) and the key's
category in `rate_limit_category`; only the key, the uid and the
`will_be_rate_limited` flag travel in the local `data` dict. -/
theorem C8_stored_on_request (env : Env) (req : Request) (k : String)
    (p : RateLimit) (m : RateLimitMeta)
    (h1 : env.resolve = .ok ())
    (h2 : env.get_rate_limit_key = .ok (some k))
    (h3 : env.get_rate_limit_value = .ok (some p))
    (h4 : env.above_rate_limit_check k p env.uuid4_hex = .ok m) :
    (middlewareCall env req).request.rate_limit_metadata = some m ∧
    (middlewareCall env req).request.rate_limit_category =
      some (category_of_key k) ∧
    (middlewareCall env req).data.rate_limit_key = some k ∧
    (middlewareCall env req).data.rate_limit_uid = some env.uuid4_hex := by
  obtain ⟨res, gk, gv, arc, er, ec, gr, hsr, frr, uu⟩ := env
  simp only at h1 h2 h3 h4
  subst h1; subst h2; subst h3
  obtain ⟨t, l, w, rr, rt, cl, cr⟩ := m
  cases ec <;> cases er <;> cases t <;> cases hsr <;> cases frr <;>
    simp_all [middlewareCall, checkPhase, responsePhase, finishStep]

/-- C8 amended witness: concrete instantiation on the pass-through fixture. -/
theorem C8_stored_on_request_witness :
    (middlewareCall envPass req0).request.rate_limit_metadata = some metaNL ∧
    (middlewareCall envPass req0).request.rate_limit_category =
      some (category_of_key "org:123") ∧
    (middlewareCall envPass req0).data.rate_limit_key = some "org:123" ∧
    (middlewareCall envPass req0).data.rate_limit_uid = some envPass.uuid4_hex :=
  C8_stored_on_request envPass req0 "org:123" policy10 metaNL rfl rfl rfl rfl
